import Mathlib

/-!
Shallow embedding of `src/ch_backup/clickhouse/control.py` (class
`ClickhouseCTL`) together with the fragments of its external collaborators
that the controller observes: the query gateway, the filesystem, and the
`retry` decorator from `ch_backup.util`.

The controller's interaction with the outside world is modelled by an
explicit environment `Env` (oracle answers for gateway queries, file reads,
directory listings, deletion outcomes) and a state `St` that counts the
effectful calls issued so far and records a trace of effects in order.
Oracles are indexed by call counts, so concurrent external mutation between
two calls (e.g. the shadow increment advancing) is representable.
-/

namespace ChBackup

/-- Python exception values the embedded code can raise or observe.
`FileNotFoundError` and `PermissionError` are subclasses of `OSError` in
Python; `osError errno` stands for any other `OSError` (e.g. `EBUSY`, `EMFILE`). -/
inductive PyErr where
  | gatewayError (msg : String)
  | osError (errno : Nat)
  | fileNotFoundError
  | permissionError
  | assertionError
  deriving DecidableEq, Repr

/-- Python exception-class test `isinstance(e, OSError)`:
`FileNotFoundError` and `PermissionError` are `OSError` subclasses. -/
def PyErr.isOSError : PyErr → Bool
  | .osError _ => true
  | .fileNotFoundError => true
  | .permissionError => true
  | _ => false

/-- The SQL templates of `control.py` that the claims exercise, in structured
form: `getPartitions` is `GET_TABLE_PARTITIONS_SQL`, `freezeTable` is
`FREEZE_TABLE_SQL`, `freezePartition` is `FREEZE_PARTITION_SQL`, and
`getTableDataPath` is `GET_TABLE_DATA_PATH_SQL`, each with the identifiers
substituted by `str.format`. -/
inductive Query where
  | getPartitions (db table : String)
  | freezeTable (db table : String)
  | freezePartition (db table partition : String)
  | getTableDataPath (db table : String)
  deriving DecidableEq, Repr

/-- Observable effects of the controller, in program order: gateway queries,
reads of the shadow increment file, `os.path.exists`, `os.listdir`,
`shutil.rmtree`, and the ownership-change delegate `chown_dir_contents`. -/
inductive Effect where
  | query (q : Query)
  | readIncrement (path : String)
  | fsExists (path : String)
  | listdir (path : String)
  | rmtree (path : String)
  | chownDirContents (user group path : String)
  deriving DecidableEq, Repr

/-- Execution state: counters for the gateway queries, increment-file reads
and `rmtree` calls issued so far, plus the trace of all effects in order. -/
structure St where
  qCount : Nat
  incCount : Nat
  rmCount : Nat
  trace : List Effect
  deriving DecidableEq, Repr

/-- The state at the start of a controller call. -/
def St.init : St := ⟨0, 0, 0, []⟩

/-- Oracle for the external world.  Answers that may change under concurrent
activity are indexed by the respective call count (`queryErr`, `incValue`,
`rmtreeErr`); `retryBound` is the bounded number of extra attempts of the
`retry` decorator (its numeric value is configuration, not in `control.py`). -/
structure Env where
  queryErr : Nat → Option PyErr
  partitionNames : String → String → List String
  tableDataPathOf : String → String → String
  incValue : Nat → String
  fsExists : String → Bool
  listdir : String → List String
  fileBytes : String → List Nat
  fileSize : String → Nat
  md5hex : List Nat → String
  rmtreeErr : Nat → Option PyErr
  retryBound : Nat

/-- Python `str.split(sep)` on the character list, single-character separator. -/
def splitCharList (sep : Char) : List Char → List (List Char)
  | [] => [[]]
  | c :: cs =>
    let r := splitCharList sep cs
    if c = sep then [] :: r
    else
      match r with
      | [] => [[c]]
      | g :: gs => (c :: g) :: gs

/-- Python `str.split(sep)` for a single-character separator. -/
def pySplitOn (sep : Char) (s : String) : List String :=
  (splitCharList sep s.data).map String.mk

/-- Decimal value of a digit string. -/
def decimalToNat (cs : List Char) : Nat :=
  cs.foldl (fun n c => n * 10 + (c.toNat - 48)) 0

/-- Numeric value of one version component (digit runs only; anything else
is outside the modelled domain and mapped to 0). -/
def numComponent (cs : List Char) : Nat :=
  if cs ≠ [] ∧ cs.all Char.isDigit then decimalToNat cs else 0

/-- Python whitespace for `str.strip()` (the characters that occur in the
increment file in practice). -/
def isSpaceChar (c : Char) : Bool :=
  c = ' ' || c = '\t' || c = '\n' || c = '\r'

/-- Python `str.strip()`. -/
def pyStrip (s : String) : String :=
  String.mk (((s.data.dropWhile isSpaceChar).reverse.dropWhile isSpaceChar).reverse)

/-- Join path components with single slashes (`os.path.join(*rel_list)` on
relative components). -/
def joinSlash : List String → String
  | [] => ""
  | [x] => x
  | x :: xs => x ++ "/" ++ joinSlash xs

/-- Python `str.startswith`. -/
def pyStartswith (s pre : String) : Bool := pre.data.isPrefixOf s.data

/-- Python `str.endswith`. -/
def pyEndswith (s suf : String) : Bool := suf.data.isSuffixOf s.data

/-- `os.path.join(a, b)` for POSIX: an absolute `b` replaces `a`; otherwise
the parts are joined with a single separator. -/
def pathJoin (a b : String) : String :=
  if pyStartswith b "/" then b
  else if a = "" || pyEndswith a "/" then a ++ b
  else a ++ "/" ++ b

/-- Non-empty path components of a POSIX path. -/
def splitComponents (s : String) : List String :=
  (pySplitOn '/' s).filter (fun c => c ≠ "")

/-- Length of the longest common prefix of two component lists. -/
def commonPrefixLen : List String → List String → Nat
  | a :: as, b :: bs => if a = b then commonPrefixLen as bs + 1 else 0
  | _, _ => 0

/-- `os.path.relpath(path, start)` for already-normalized absolute POSIX
paths: strip the common component prefix, prepend one `..` per remaining
component of `start`. -/
def relpath (path start : String) : String :=
  let pl := splitComponents path
  let sl := splitComponents start
  let i := commonPrefixLen sl pl
  let rel := List.replicate (sl.length - i) ".." ++ pl.drop i
  if rel = [] then "." else joinSlash rel

/-- `Partition` of `control.py`: identifies a table partition. -/
structure Partition where
  database : String
  table : String
  name : String
  deriving DecidableEq, Repr

/-- `FreezedPart` of `control.py`: one on-disk freezed data part. -/
structure FreezedPart where
  database : String
  table : String
  name : String
  path : String
  checksum : String
  size : Nat
  deriving DecidableEq, Repr

/-- The fields of `ClickhouseCTL` fixed at construction: `_data_path`,
`_shadow_data_path`, `_ch_version` (queried once in `__init__` and cached for
the controller's lifetime), and the config's `user` and `group`. -/
structure ClickhouseCTL where
  dataPath : String
  shadowDataPath : String
  chVersion : String
  user : String
  group : String
  deriving Repr

/-- `ClickhouseCTL.__init__`: `_data_path = join(root, 'data')`,
`_shadow_data_path = join(root, 'shadow')`, `_ch_version = query(version())`. -/
def ClickhouseCTL.make (rootDataPath user group chVersion : String) : ClickhouseCTL :=
  ⟨pathJoin rootDataPath "data", pathJoin rootDataPath "shadow", chVersion, user, group⟩

/-- Outcome of an embedded computation: a value or a raised Python exception,
together with the state (the trace survives an exception). -/
inductive Res (α : Type) where
  | ok (a : α) (st : St)
  | err (e : PyErr) (st : St)
  deriving DecidableEq, Repr

/-- An embedded effectful computation of the controller. -/
def CtlM (α : Type) := St → Res α

/-- The state component of an outcome. -/
def Res.state {α : Type} : Res α → St
  | .ok _ st => st
  | .err _ st => st

/-- `ClickhouseClient.query`: executes one gateway query; whether the call
raises is given by `Env.queryErr` at the current query index. The query
effect is recorded for the issued command either way. -/
def chQuery (env : Env) (q : Query) : CtlM Unit := fun st =>
  let st1 : St := { st with qCount := st.qCount + 1, trace := st.trace ++ [Effect.query q] }
  match env.queryErr st.qCount with
  | some e => .err e st1
  | none => .ok () st1

/-- `get_partitions`: queries `GET_TABLE_PARTITIONS_SQL` and builds one
`Partition` per returned row. -/
def get_partitions (env : Env) (db table : String) : CtlM (List Partition) := fun st =>
  match chQuery env (Query.getPartitions db table) st with
  | .err e st1 => .err e st1
  | .ok _ st1 => .ok ((env.partitionNames db table).map (fun n => ⟨db, table, n⟩)) st1

/-- `_get_table_data_path`: queries `GET_TABLE_DATA_PATH_SQL`. -/
def _get_table_data_path (env : Env) (db table : String) : CtlM String := fun st =>
  match chQuery env (Query.getTableDataPath db table) st with
  | .err e st1 => .err e st1
  | .ok _ st1 => .ok (env.tableDataPathOf db table) st1

/-- `_get_table_data_relpath`: `os.path.relpath(data_path, self._data_path)`. -/
def _get_table_data_relpath (env : Env) (ctl : ClickhouseCTL) (db table : String) :
    CtlM String := fun st =>
  match _get_table_data_path env db table st with
  | .err e st1 => .err e st1
  | .ok p st1 => .ok (relpath p ctl.dataPath) st1

/-- `_get_table_detached_path`: `join(data_path, 'detached')`. -/
def _get_table_detached_path (env : Env) (db table : String) : CtlM String := fun st =>
  match _get_table_data_path env db table st with
  | .err e st1 => .err e st1
  | .ok p st1 => .ok (pathJoin p "detached") st1

/-- The path of the generation-marker file: `join(self._shadow_data_path, 'increment.txt')`. -/
def incrementPath (ctl : ClickhouseCTL) : String := pathJoin ctl.shadowDataPath "increment.txt"

/-- `_get_shadow_increment`: opens the increment file and returns
`file.read().strip()`; the raw content of the k-th read is `Env.incValue k`. -/
def _get_shadow_increment (env : Env) (ctl : ClickhouseCTL) : CtlM String := fun st =>
  .ok (pyStrip (env.incValue st.incCount))
    { st with incCount := st.incCount + 1,
              trace := st.trace ++ [Effect.readIncrement (incrementPath ctl)] }

/-- `_get_part_checksum`: `md5(open(join(part_path, 'checksums.txt'), 'rb').read()).hexdigest()`.
The digest function itself is carried by the environment (`Env.md5hex`). -/
def _get_part_checksum (env : Env) (part_path : String) : String :=
  env.md5hex (env.fileBytes (pathJoin part_path "checksums.txt"))

/-- `_get_part_size`: sum of `os.path.getsize` over the files listed directly
inside the part directory. -/
def _get_part_size (env : Env) (part_path : String) : Nat :=
  ((env.listdir part_path).map (fun f => env.fileSize (pathJoin part_path f))).foldl (· + ·) 0

/-- The `FreezedPart` built for one entry of the snapshot directory listing
(the loop body of `_get_freezed_parts`). -/
def mkFreezedPart (env : Env) (db table dirPath part : String) : FreezedPart :=
  let part_path := pathJoin dirPath part
  ⟨db, table, part, part_path, _get_part_checksum env part_path, _get_part_size env part_path⟩

/-- The snapshot directory `_get_freezed_parts` resolves when the increment
file is read for the i-th time:
`join(shadow, increment_i, 'data', relpath(table_data_path, data_path))`. -/
def snapshotPathAt (env : Env) (ctl : ClickhouseCTL) (db table : String) (i : Nat) : String :=
  pathJoin (pathJoin (pathJoin ctl.shadowDataPath (pyStrip (env.incValue i))) "data")
    (relpath (env.tableDataPathOf db table) ctl.dataPath)

/-- `_get_freezed_parts`: re-reads the shadow increment, resolves the snapshot
directory, returns `[]` if it does not exist, and otherwise builds one
`FreezedPart` per directory entry. -/
def _get_freezed_parts (env : Env) (ctl : ClickhouseCTL) (db table : String) :
    CtlM (List FreezedPart) := fun st =>
  match _get_shadow_increment env ctl st with
  | .err e st1 => .err e st1
  | .ok inc st1 =>
    match _get_table_data_relpath env ctl db table st1 with
    | .err e st2 => .err e st2
    | .ok rel st2 =>
      let path := pathJoin (pathJoin (pathJoin ctl.shadowDataPath inc) "data") rel
      let st3 : St := { st2 with trace := st2.trace ++ [Effect.fsExists path] }
      if env.fsExists path then
        let st4 : St := { st3 with trace := st3.trace ++ [Effect.listdir path] }
        .ok ((env.listdir path).map (fun part => mkFreezedPart env db table path part)) st4
      else
        .ok [] st3

/-- The artifact list one `_get_freezed_parts` call returns when it performs
the i-th read of the increment file (pure characterization). -/
def enumAt (env : Env) (ctl : ClickhouseCTL) (db table : String) (i : Nat) : List FreezedPart :=
  let path := snapshotPathAt env ctl db table i
  if env.fsExists path then
    (env.listdir path).map (fun part => mkFreezedPart env db table path part)
  else []

/-- `_freeze_table` (whole-table path): one `FREEZE` query, then one
enumeration of the snapshot directory. -/
def _freeze_table (env : Env) (ctl : ClickhouseCTL) (db table : String) :
    CtlM (List FreezedPart) := fun st =>
  match chQuery env (Query.freezeTable db table) st with
  | .err e st1 => .err e st1
  | .ok _ st1 => _get_freezed_parts env ctl db table st1

/-- The `for partition in ...` loop of `_freeze_table_compat`: per partition,
one `FREEZE PARTITION` query followed by one enumeration whose results are
appended (`freezed_parts.extend(...)`). -/
def freezeCompatLoop (env : Env) (ctl : ClickhouseCTL) (db table : String) :
    List Partition → List FreezedPart → CtlM (List FreezedPart)
  | [], acc => fun st => .ok acc st
  | p :: ps, acc => fun st =>
    match chQuery env (Query.freezePartition db table p.name) st with
    | .err e st1 => .err e st1
    | .ok _ st1 =>
      match _get_freezed_parts env ctl db table st1 with
      | .err e st2 => .err e st2
      | .ok fps st2 => freezeCompatLoop env ctl db table ps (acc ++ fps) st2

/-- `_freeze_table_compat`: enumerate the active partitions, then run the
per-partition freeze loop with an empty accumulator. -/
def _freeze_table_compat (env : Env) (ctl : ClickhouseCTL) (db table : String) :
    CtlM (List FreezedPart) := fun st =>
  match get_partitions env db table st with
  | .err e st1 => .err e st1
  | .ok parts st1 => freezeCompatLoop env ctl db table parts [] st1

/-- `pkg_resources.parse_version` restricted to dotted numeric release
strings: the list of numeric components. -/
def parseVersion (s : String) : List Nat :=
  (pySplitOn '.' s).map (fun c => numComponent c.data)

/-- Does any component differ from 0? -/
def anyPos (l : List Nat) : Bool := l.any (fun b => b != 0)

/-- Strict less-than on release component lists, comparing position-wise with
implicit zero padding of the shorter list (PEP 440 release ordering). -/
def verLt : List Nat → List Nat → Bool
  | [], b => anyPos b
  | a :: as, [] => a == 0 && verLt as []
  | a :: as, b :: bs => a < b || (a == b && verLt as bs)

/-- `parse_version(a) >= parse_version(b)` on component lists. -/
def verGe (a b : List Nat) : Bool := !(verLt a b)

/-- Well-formedness of a version string for the `parseVersion` model:
dot-separated non-empty runs of digits. -/
def isVersionString (s : String) : Bool :=
  (pySplitOn '.' s).all (fun c => decide (c.data ≠ []) && c.data.all Char.isDigit)

/-- `_match_ch_version`: `parse_version(self._ch_version) >= parse_version(min_version)`. -/
def _match_ch_version (ctl : ClickhouseCTL) (min_version : String) : Bool :=
  verGe (parseVersion ctl.chVersion) (parseVersion min_version)

/-- `freeze_table`: whole-table path from engine version 18.16.0 on, otherwise
the per-partition compatibility path. -/
def freeze_table (env : Env) (ctl : ClickhouseCTL) (db table : String) :
    CtlM (List FreezedPart) :=
  if _match_ch_version ctl "18.16.0" then _freeze_table env ctl db table
  else _freeze_table_compat env ctl db table

/-- `chown_dir_contents` of `ch_backup.util`: external FilesystemDelegate,
modelled by the effect it emits. -/
def chown_dir_contents (user group dirPath : String) : CtlM Unit := fun st =>
  .ok () { st with trace := st.trace ++ [Effect.chownDirContents user group dirPath] }

/-- `_chown_dir`: `assert dir_path.startswith(self._data_path)`, then delegate
to `chown_dir_contents` with the config's user and group. -/
def _chown_dir (ctl : ClickhouseCTL) (dir_path : String) : CtlM Unit := fun st =>
  if pyStartswith dir_path ctl.dataPath then
    chown_dir_contents ctl.user ctl.group dir_path st
  else .err PyErr.assertionError st

/-- `chown_detached_table_parts`: resolve the table's detached directory, then
`_chown_dir` it. -/
def chown_detached_table_parts (env : Env) (ctl : ClickhouseCTL) (db table : String) :
    CtlM Unit := fun st =>
  match _get_table_detached_path env db table st with
  | .err e st1 => .err e st1
  | .ok p st1 => _chown_dir ctl p st1

/-- `shutil.rmtree`: one deletion syscall on the tree rooted at `path`.  An
absent root raises `FileNotFoundError`; the outcome of the k-th call on an
existing root is `Env.rmtreeErr k` (`none` = success, `some e` = raised `e`). -/
def rmtree (env : Env) (path : String) : CtlM Unit := fun st =>
  let st1 : St := { st with rmCount := st.rmCount + 1, trace := st.trace ++ [Effect.rmtree path] }
  if env.fsExists path then
    match env.rmtreeErr st.rmCount with
    | some e => .err e st1
    | none => .ok () st1
  else .err PyErr.fileNotFoundError st1

/-- Which files a successful `shutil.rmtree(root)` removes: the root itself
and every path below it. -/
def rmtreeDeletes (root f : String) : Bool :=
  f == root || pyStartswith f (root ++ "/")

/-- The `try ... except FileNotFoundError: pass` wrapper of
`_remove_shadow_data`. -/
def catchFileNotFound (body : CtlM Unit) : CtlM Unit := fun st =>
  match body st with
  | .err PyErr.fileNotFoundError st1 => .ok () st1
  | r => r

/-- Modelled from the spec: the `retry` decorator of `ch_backup.util` (its
definition is not under src; only the application `@retry(OSError)` is).  Per
the spec it is a bounded-retry policy parameterized by the exception kinds it
covers: the body is re-invoked while the raised error covers and attempts
remain; a non-matching error, or exhaustion of the bound, surfaces the error.
Backoff timing is not modelled. `n` is the number of additional attempts allowed. -/
def retryCall (covers : PyErr → Bool) (body : CtlM Unit) : Nat → CtlM Unit
  | 0 => body
  | n + 1 => fun st =>
    match body st with
    | .ok a st1 => .ok a st1
    | .err e st1 => if covers e then retryCall covers body n st1 else .err e st1

/-- The body of `_remove_shadow_data` (inside the `@retry(OSError)` wrapper):
`assert path.startswith(self._shadow_data_path)`, then `rmtree` with
`FileNotFoundError` swallowed. -/
def removeShadowBody (env : Env) (ctl : ClickhouseCTL) (path : String) : CtlM Unit := fun st =>
  if pyStartswith path ctl.shadowDataPath then
    catchFileNotFound (rmtree env path) st
  else .err PyErr.assertionError st

/-- `_remove_shadow_data` with its `@retry(OSError)` decorator. -/
def _remove_shadow_data (env : Env) (ctl : ClickhouseCTL) (path : String) : CtlM Unit :=
  retryCall PyErr.isOSError (removeShadowBody env ctl path) env.retryBound

/-- `remove_freezed_data`: remove the whole shadow directory. -/
def remove_freezed_data (env : Env) (ctl : ClickhouseCTL) : CtlM Unit :=
  _remove_shadow_data env ctl ctl.shadowDataPath

/-- `remove_freezed_part`: remove one freezed part's directory. -/
def remove_freezed_part (env : Env) (ctl : ClickhouseCTL) (part : FreezedPart) : CtlM Unit :=
  _remove_shadow_data env ctl part.path

/-- Is this effect a `FREEZE PARTITION` gateway command? -/
def Effect.isFreezePartitionQ : Effect → Bool
  | .query (Query.freezePartition _ _ _) => true
  | _ => false

/-- Is this effect a filesystem mutation (deletion or ownership change)? -/
def Effect.isMutation : Effect → Bool
  | .rmtree _ => true
  | .chownDirContents _ _ _ => true
  | _ => false

/-- The trace one successful `_get_freezed_parts` call appends when it
performs the i-th increment read. -/
def gfpTrace (env : Env) (ctl : ClickhouseCTL) (db table : String) (i : Nat) : List Effect :=
  let path := snapshotPathAt env ctl db table i
  [Effect.readIncrement (incrementPath ctl), Effect.query (Query.getTableDataPath db table),
   Effect.fsExists path] ++ (if env.fsExists path then [Effect.listdir path] else [])

/-- The trace a fully successful compatibility loop appends, starting at
increment-read index `i`. -/
def loopTrace (env : Env) (ctl : ClickhouseCTL) (db table : String) :
    Nat → List Partition → List Effect
  | _, [] => []
  | i, p :: ps =>
    Effect.query (Query.freezePartition db table p.name) ::
      (gfpTrace env ctl db table i ++ loopTrace env ctl db table (i + 1) ps)

/-- The artifacts a fully successful compatibility loop accumulates, starting
at increment-read index `i`: the concatenation of one enumeration per
partition, each at its own fresh increment read. -/
def partsFrom (env : Env) (ctl : ClickhouseCTL) (db table : String) :
    Nat → List Partition → List FreezedPart
  | _, [] => []
  | i, _ :: ps => enumAt env ctl db table i ++ partsFrom env ctl db table (i + 1) ps

/-- The partitions `get_partitions` builds from the gateway response. -/
def partitionsOf (env : Env) (db table : String) : List Partition :=
  (env.partitionNames db table).map (fun n => ⟨db, table, n⟩)

/-- The value returned by a successful run (`[]` for a raised exception). -/
def resParts (r : Res (List FreezedPart)) : List FreezedPart :=
  match r with
  | .ok l _ => l
  | .err _ _ => []

/-- A computation only appends effects to the trace, and none of the appended
effects is a filesystem mutation (deletion or ownership change). -/
def tracePure {α : Type} (m : CtlM α) : Prop :=
  ∀ st, ∃ ext, ((m st).state).trace = st.trace ++ ext ∧
    ∀ ef ∈ ext, Effect.isMutation ef = false

/-! ## Concrete instances used to exercise the model -/

/-- A controller over data root `/r` with a post-threshold engine version. -/
def ctlNew : ClickhouseCTL := ClickhouseCTL.make "/r" "clickhouse" "clickhouse" "19.1.0"

/-- A controller over data root `/r` with a pre-threshold engine version. -/
def ctlOld : ClickhouseCTL := ClickhouseCTL.make "/r" "clickhouse" "clickhouse" "18.10.0"

/-- A controller whose version is below the threshold semantically although
it is above it in lexical string order ("18.2.0" > "18.16.0" as strings). -/
def ctlSem : ClickhouseCTL := ClickhouseCTL.make "/r" "clickhouse" "clickhouse" "18.2.0"

/-- A benign world: every query succeeds, the increment file always reads
`5`, every path exists, the snapshot directory holds one part, deletions
succeed. -/
def envBase : Env where
  queryErr := fun _ => none
  partitionNames := fun _ _ => ["202301", "202302"]
  tableDataPathOf := fun _ _ => "/r/data/db/t"
  incValue := fun _ => "5"
  fsExists := fun _ => true
  listdir := fun p => if p = "/r/shadow/5/data/db/t" then ["part1"] else ["f1"]
  fileBytes := fun _ => [1, 2]
  fileSize := fun _ => 10
  md5hex := fun bs => String.mk (List.replicate bs.length 'h')
  rmtreeErr := fun _ => none
  retryBound := 3

/-- A world where no path exists on disk. -/
def envAbsent : Env := { envBase with fsExists := fun _ => false }

/-- A world where the first deletion attempt raises `PermissionError` and the
second succeeds. -/
def envPermRetry : Env :=
  { envBase with
    rmtreeErr := fun k => if k = 0 then some PyErr.permissionError else none }

/-- A world where every deletion attempt raises `PermissionError`. -/
def envPermAll : Env :=
  { envBase with rmtreeErr := fun _ => some PyErr.permissionError }

/-- A world where the second gateway query (the first freeze-partition
command of the compatibility path) raises a gateway error. -/
def envFreezeFail : Env :=
  { envBase with
    queryErr := fun k => if k = 1 then some (PyErr.gatewayError "freeze failed") else none }

/-! ## Helper lemmas -/

theorem pyStartswith_self (s : String) : pyStartswith s s = true := by
  simp [pyStartswith, List.isPrefixOf_iff_prefix]

theorem pyStartswith_append (s t : String) : pyStartswith (s ++ t) s = true := by
  simp [pyStartswith, List.isPrefixOf_iff_prefix, String.data_append, List.prefix_append]

theorem string_append_cancel_left {s t u : String} (h : s ++ t = s ++ u) : t = u := by
  apply String.ext
  have hd := congrArg String.data h
  simp only [String.data_append] at hd
  exact List.append_cancel_left hd

/-- `pathJoin dir` is injective on entries that are not absolute paths. -/
theorem pathJoin_inj {dir a b : String} (ha : pyStartswith a "/" = false)
    (hb : pyStartswith b "/" = false) (h : pathJoin dir a = pathJoin dir b) : a = b := by
  unfold pathJoin at h
  rw [ha, hb] at h
  simp only [Bool.false_eq_true, if_false] at h
  by_cases hd : (dir = "" || pyEndswith dir "/") = true
  · rw [if_pos hd, if_pos hd] at h
    exact string_append_cancel_left h
  · rw [if_neg hd, if_neg hd] at h
    exact string_append_cancel_left h

theorem chQuery_ok {env : Env} {st : St} (q : Query) (h : env.queryErr st.qCount = none) :
    chQuery env q st =
      Res.ok () { st with qCount := st.qCount + 1, trace := st.trace ++ [Effect.query q] } := by
  unfold chQuery
  rw [h]

theorem chQuery_err {env : Env} {st : St} {e : PyErr} (q : Query)
    (h : env.queryErr st.qCount = some e) :
    chQuery env q st =
      Res.err e { st with qCount := st.qCount + 1, trace := st.trace ++ [Effect.query q] } := by
  unfold chQuery
  rw [h]

/-- Characterization of a successful `_get_freezed_parts` call: it performs
one fresh increment read, one data-path query, and returns the enumeration at
the current increment-read index. -/
theorem gfp_ok {env : Env} {ctl : ClickhouseCTL} {db table : String} {st : St}
    (h : env.queryErr st.qCount = none) :
    _get_freezed_parts env ctl db table st =
      Res.ok (enumAt env ctl db table st.incCount)
        { st with qCount := st.qCount + 1, incCount := st.incCount + 1,
                  trace := st.trace ++ gfpTrace env ctl db table st.incCount } := by
  unfold _get_freezed_parts _get_shadow_increment _get_table_data_relpath _get_table_data_path chQuery
  simp only [h, enumAt, gfpTrace, snapshotPathAt]
  by_cases hfs : env.fsExists
      (pathJoin (pathJoin (pathJoin ctl.shadowDataPath (pyStrip (env.incValue st.incCount))) "data")
        (relpath (env.tableDataPathOf db table) ctl.dataPath)) = true
  · simp [hfs, List.append_assoc]
  · simp only [Bool.not_eq_true] at hfs
    simp [hfs, List.append_assoc]

/-- `chQuery` under an oracle without failures. -/
theorem chQuery_ok_all {env : Env} (hq : ∀ j, env.queryErr j = none) (q : Query) (st : St) :
    chQuery env q st =
      Res.ok () { st with qCount := st.qCount + 1, trace := st.trace ++ [Effect.query q] } :=
  chQuery_ok q (hq _)

/-- `_get_freezed_parts` under an oracle without failures. -/
theorem gfp_ok_all {env : Env} {ctl : ClickhouseCTL} {db table : String}
    (hq : ∀ j, env.queryErr j = none) (st : St) :
    _get_freezed_parts env ctl db table st =
      Res.ok (enumAt env ctl db table st.incCount)
        { st with qCount := st.qCount + 1, incCount := st.incCount + 1,
                  trace := st.trace ++ gfpTrace env ctl db table st.incCount } :=
  gfp_ok (hq _)

/-- A fully successful compatibility loop: one freeze command and one
enumeration per partition, accumulated in order, with one increment read per
iteration. -/
theorem freezeCompatLoop_ok {env : Env} (ctl : ClickhouseCTL) (db table : String)
    (ps : List Partition) (hq : ∀ j, env.queryErr j = none) :
    ∀ (acc : List FreezedPart) (st : St),
    freezeCompatLoop env ctl db table ps acc st =
      Res.ok (acc ++ partsFrom env ctl db table st.incCount ps)
        { st with qCount := st.qCount + 2 * ps.length,
                  incCount := st.incCount + ps.length,
                  trace := st.trace ++ loopTrace env ctl db table st.incCount ps } := by
  induction ps with
  | nil =>
    intro acc st
    simp [freezeCompatLoop, partsFrom, loopTrace]
  | cons p ps ih =>
    intro acc st
    simp only [freezeCompatLoop, chQuery_ok_all hq, gfp_ok_all hq, ih]
    simp only [partsFrom, loopTrace, Res.ok.injEq, St.mk.injEq, List.length_cons]
    refine ⟨by simp [List.append_assoc], by omega, by omega, trivial,
      by simp [List.append_assoc]⟩

/-- `_get_freezed_parts` appends no freeze-partition command to the trace. -/
theorem filter_gfpTrace (env : Env) (ctl : ClickhouseCTL) (db table : String) (i : Nat) :
    (gfpTrace env ctl db table i).filter Effect.isFreezePartitionQ = [] := by
  unfold gfpTrace
  by_cases hfs : env.fsExists (snapshotPathAt env ctl db table i) = true
  · simp [hfs, List.filter, Effect.isFreezePartitionQ]
  · simp only [Bool.not_eq_true] at hfs
    simp [hfs, List.filter, Effect.isFreezePartitionQ]

/-- The freeze-partition commands of a fully successful loop trace: exactly
one per partition, in order. -/
theorem filter_loopTrace (env : Env) (ctl : ClickhouseCTL) (db table : String)
    (ps : List Partition) :
    ∀ i, (loopTrace env ctl db table i ps).filter Effect.isFreezePartitionQ =
      ps.map (fun p => Effect.query (Query.freezePartition db table p.name)) := by
  induction ps with
  | nil => intro i; simp [loopTrace]
  | cons p ps ih =>
    intro i
    simp [loopTrace, List.filter_append, filter_gfpTrace, ih, List.filter,
      Effect.isFreezePartitionQ]

/-- A compatibility loop whose (k+1)-th freeze command raises a gateway error
(all earlier queries succeeding): the error propagates and the loop stops, the
trace holding exactly the first k+1 freeze commands. -/
theorem freezeCompatLoop_err {env : Env} (ctl : ClickhouseCTL) (db table : String)
    (ps : List Partition) :
    ∀ (k : Nat) (acc : List FreezedPart) (st : St) (e : PyErr),
    (∀ j, j < k → env.queryErr (st.qCount + 2 * j) = none ∧
      env.queryErr (st.qCount + 2 * j + 1) = none) →
    env.queryErr (st.qCount + 2 * k) = some e →
    k < ps.length →
    ∃ st1, freezeCompatLoop env ctl db table ps acc st = Res.err e st1 ∧
      st1.trace.filter Effect.isFreezePartitionQ =
        st.trace.filter Effect.isFreezePartitionQ ++
          (ps.take (k + 1)).map (fun p => Effect.query (Query.freezePartition db table p.name)) := by
  induction ps with
  | nil =>
    intro k acc st e _ _ hk
    exact absurd hk (by simp)
  | cons p ps ih =>
    intro k acc st e hfree herr hk
    match k with
    | 0 =>
      refine ⟨{ st with qCount := st.qCount + 1, trace := st.trace ++ [Effect.query (Query.freezePartition db table p.name)] }, ?_, ?_⟩
      · simp only [freezeCompatLoop, chQuery_err _ (by simpa using herr)]
      · simp [List.filter_append, List.filter, Effect.isFreezePartitionQ]
    | k + 1 =>
      have h0 := hfree 0 (by omega)
      simp only [Nat.mul_zero, Nat.add_zero] at h0
      have hg := @gfp_ok env ctl db table
        { st with qCount := st.qCount + 1, trace := st.trace ++ [Effect.query (Query.freezePartition db table p.name)] }
        (by simpa using h0.2)
      simp only [freezeCompatLoop, chQuery_ok _ h0.1, hg]
      obtain ⟨st1, hrun, hfilter⟩ :=
        ih k (acc ++ enumAt env ctl db table st.incCount)
          { st with qCount := st.qCount + 1 + 1, incCount := st.incCount + 1,
                    trace := (st.trace ++ [Effect.query (Query.freezePartition db table p.name)]) ++
                      gfpTrace env ctl db table st.incCount }
          e
          (by
            intro j hj
            constructor
            · have heq : st.qCount + 1 + 1 + 2 * j = st.qCount + 2 * (j + 1) := by omega
              simp only [heq]
              exact (hfree (j + 1) (by omega)).1
            · have heq : st.qCount + 1 + 1 + 2 * j + 1 = st.qCount + 2 * (j + 1) + 1 := by omega
              simp only [heq]
              exact (hfree (j + 1) (by omega)).2)
          (by
            have heq : st.qCount + 1 + 1 + 2 * k = st.qCount + 2 * (k + 1) := by omega
            simp only [heq]
            exact herr)
          (by simpa using Nat.lt_of_succ_lt_succ hk)
      refine ⟨st1, hrun, ?_⟩
      rw [hfilter]
      simp [List.filter_append, filter_gfpTrace, List.filter, Effect.isFreezePartitionQ,
        List.append_assoc]

/-- Failing `_get_freezed_parts`: the data-path query raised; the increment
read had already happened. -/
theorem gfp_err {env : Env} {ctl : ClickhouseCTL} {db table : String} {st : St} {e : PyErr}
    (h : env.queryErr st.qCount = some e) :
    _get_freezed_parts env ctl db table st =
      Res.err e
        { st with qCount := st.qCount + 1, incCount := st.incCount + 1,
                  trace := st.trace ++ [Effect.readIncrement (incrementPath ctl),
                    Effect.query (Query.getTableDataPath db table)] } := by
  unfold _get_freezed_parts _get_shadow_increment _get_table_data_relpath _get_table_data_path chQuery
  simp only [h]
  simp [List.append_assoc]

/-- Fully successful `_freeze_table_compat` from the initial state. -/
theorem _freeze_table_compat_ok {env : Env} (ctl : ClickhouseCTL) (db table : String)
    (hq : ∀ j, env.queryErr j = none) :
    _freeze_table_compat env ctl db table St.init =
      Res.ok (partsFrom env ctl db table 0 (partitionsOf env db table))
        ⟨1 + 2 * (partitionsOf env db table).length, (partitionsOf env db table).length, 0,
          Effect.query (Query.getPartitions db table) ::
            loopTrace env ctl db table 0 (partitionsOf env db table)⟩ := by
  unfold _freeze_table_compat get_partitions
  simp only [chQuery_ok_all hq]
  rw [freezeCompatLoop_ok ctl db table _ hq]
  simp [St.init, partitionsOf]

/-- Fully successful `_freeze_table` (whole-table path) from the initial
state: one freeze command, one increment read, one enumeration. -/
theorem _freeze_table_ok {env : Env} (ctl : ClickhouseCTL) (db table : String)
    (hq : ∀ j, env.queryErr j = none) :
    _freeze_table env ctl db table St.init =
      Res.ok (enumAt env ctl db table 0)
        ⟨2, 1, 0, Effect.query (Query.freezeTable db table) :: gfpTrace env ctl db table 0⟩ := by
  unfold _freeze_table
  simp only [chQuery_ok_all hq]
  rw [gfp_ok (by simp [St.init]; exact hq 1)]
  simp [St.init]

/-- `retryCall` passes a first-attempt success through unchanged. -/
theorem retryCall_ok {covers : PyErr → Bool} {body : CtlM Unit} {n : Nat} {st st1 : St}
    (h : body st = Res.ok () st1) : retryCall covers body n st = Res.ok () st1 := by
  cases n <;> simp [retryCall, h]

/-- `retryCall` surfaces a non-matching error from the first attempt without
any further attempt. -/
theorem retryCall_nomatch {covers : PyErr → Bool} {body : CtlM Unit} {n : Nat} {st st1 : St}
    {e : PyErr} (h : body st = Res.err e st1) (hc : covers e = false) :
    retryCall covers body n st = Res.err e st1 := by
  cases n <;> simp [retryCall, h, hc]

/-- `retryCall` on a body that deterministically raises a matching error on
every attempt: all n+1 attempts run, then the error surfaces. -/
theorem retryCall_allfail {covers : PyErr → Bool} {body : CtlM Unit} {e : PyErr} {path : String}
    (hc : covers e = true)
    (hbody : ∀ st, body st = Res.err e { st with rmCount := st.rmCount + 1, trace := st.trace ++ [Effect.rmtree path] }) :
    ∀ (n : Nat) (st : St), retryCall covers body n st =
      Res.err e { st with rmCount := st.rmCount + (n + 1), trace := st.trace ++ List.replicate (n + 1) (Effect.rmtree path) } := by
  intro n
  induction n with
  | zero =>
    intro st
    rw [retryCall, hbody st]
    simp
  | succ n ih =>
    intro st
    simp only [retryCall, hbody st, hc, if_true]
    rw [ih]
    simp only [Res.err.injEq, St.mk.injEq]
    refine ⟨trivial, trivial, trivial, by omega, ?_⟩
    simp [List.replicate_succ, List.append_assoc]

/-- `retryCall` only extends the trace when the body does. -/
theorem retryCall_traceExt {covers : PyErr → Bool} {body : CtlM Unit}
    (hbody : ∀ st, ∃ ext, ((body st).state).trace = st.trace ++ ext) :
    ∀ (n : Nat) (st : St), ∃ ext,
      ((retryCall covers body n st).state).trace = st.trace ++ ext := by
  intro n
  induction n with
  | zero => exact hbody
  | succ n ih =>
    intro st
    rcases hb : body st with ⟨a, st1⟩ | ⟨e, st1⟩
    · obtain ⟨ext, hext⟩ := hbody st
      rw [hb] at hext
      simp only [Res.state] at hext
      exact ⟨ext, by simp [retryCall, hb, Res.state, hext]⟩
    · obtain ⟨ext, hext⟩ := hbody st
      rw [hb] at hext
      simp only [Res.state] at hext
      by_cases hc : covers e = true
      · obtain ⟨ext2, hext2⟩ := ih st1
        refine ⟨ext ++ ext2, ?_⟩
        simp only [retryCall, hb, hc, if_true]
        rw [hext2, hext, List.append_assoc]
      · simp only [Bool.not_eq_true] at hc
        exact ⟨ext, by simp [retryCall, hb, hc, Res.state, hext]⟩

/-- The guard-refused body: no effect, state unchanged. -/
theorem removeShadowBody_refuse {env : Env} {ctl : ClickhouseCTL} {path : String}
    (hpre : pyStartswith path ctl.shadowDataPath = false) (st : St) :
    removeShadowBody env ctl path st = Res.err PyErr.assertionError st := by
  unfold removeShadowBody
  simp [hpre]

/-- Body behavior on an absent target: the `rmtree` raises
`FileNotFoundError`, which is swallowed. -/
theorem removeShadowBody_absent {env : Env} {ctl : ClickhouseCTL} {path : String}
    (hpre : pyStartswith path ctl.shadowDataPath = true)
    (habs : env.fsExists path = false) (st : St) :
    removeShadowBody env ctl path st =
      Res.ok () { st with rmCount := st.rmCount + 1, trace := st.trace ++ [Effect.rmtree path] } := by
  unfold removeShadowBody catchFileNotFound rmtree
  simp [hpre, habs]

/-- Body behavior when `rmtree` succeeds. -/
theorem removeShadowBody_ok {env : Env} {ctl : ClickhouseCTL} {path : String} {st : St}
    (hpre : pyStartswith path ctl.shadowDataPath = true)
    (hex : env.fsExists path = true)
    (hok : env.rmtreeErr st.rmCount = none) :
    removeShadowBody env ctl path st =
      Res.ok () { st with rmCount := st.rmCount + 1, trace := st.trace ++ [Effect.rmtree path] } := by
  unfold removeShadowBody catchFileNotFound rmtree
  simp [hpre, hex, hok]

/-- Body behavior when `rmtree` raises an error other than
`FileNotFoundError`. -/
theorem removeShadowBody_err {env : Env} {ctl : ClickhouseCTL} {path : String} {st : St}
    {e : PyErr} (hpre : pyStartswith path ctl.shadowDataPath = true)
    (hex : env.fsExists path = true)
    (herr : env.rmtreeErr st.rmCount = some e) (hne : e ≠ PyErr.fileNotFoundError) :
    removeShadowBody env ctl path st =
      Res.err e { st with rmCount := st.rmCount + 1, trace := st.trace ++ [Effect.rmtree path] } := by
  unfold removeShadowBody catchFileNotFound rmtree
  simp only [hpre, if_true, hex, herr]
  cases e <;> simp_all

/-- When the guard passes, each body attempt emits exactly one `rmtree`
effect on the target path. -/
theorem removeShadowBody_trace {env : Env} {ctl : ClickhouseCTL} {path : String}
    (hpre : pyStartswith path ctl.shadowDataPath = true) (st : St) :
    ((removeShadowBody env ctl path st).state).trace = st.trace ++ [Effect.rmtree path] := by
  unfold removeShadowBody catchFileNotFound rmtree
  simp only [hpre, if_true]
  by_cases hex : env.fsExists path = true
  · simp only [hex, if_true]
    cases hr : env.rmtreeErr st.rmCount with
    | none => simp [Res.state]
    | some e => cases e <;> simp [Res.state]
  · simp only [Bool.not_eq_true] at hex
    simp [hex, Res.state]

/-- No effect of a `_get_freezed_parts` trace is a filesystem mutation. -/
theorem gfpTrace_noMutation (env : Env) (ctl : ClickhouseCTL) (db table : String) (i : Nat) :
    ∀ ef ∈ gfpTrace env ctl db table i, Effect.isMutation ef = false := by
  intro ef hef
  unfold gfpTrace at hef
  by_cases hfs : env.fsExists (snapshotPathAt env ctl db table i) = true
  · simp [hfs] at hef
    rcases hef with rfl | rfl | rfl | rfl <;> rfl
  · simp only [Bool.not_eq_true] at hfs
    simp [hfs] at hef
    rcases hef with rfl | rfl | rfl <;> rfl

theorem tracePure_chQuery (env : Env) (q : Query) : tracePure (chQuery env q) := by
  intro st
  cases hq : env.queryErr st.qCount with
  | none =>
    exact ⟨[Effect.query q], by simp [chQuery, hq, Res.state], by simp [Effect.isMutation]⟩
  | some e =>
    exact ⟨[Effect.query q], by simp [chQuery, hq, Res.state], by simp [Effect.isMutation]⟩

theorem tracePure_get_partitions (env : Env) (db table : String) :
    tracePure (get_partitions env db table) := by
  intro st
  cases hq : env.queryErr st.qCount with
  | none =>
    exact ⟨[Effect.query (Query.getPartitions db table)],
      by simp [get_partitions, chQuery, hq, Res.state], by simp [Effect.isMutation]⟩
  | some e =>
    exact ⟨[Effect.query (Query.getPartitions db table)],
      by simp [get_partitions, chQuery, hq, Res.state], by simp [Effect.isMutation]⟩

theorem tracePure_gfp (env : Env) (ctl : ClickhouseCTL) (db table : String) :
    tracePure (_get_freezed_parts env ctl db table) := by
  intro st
  cases hq : env.queryErr st.qCount with
  | none =>
    rw [gfp_ok hq]
    exact ⟨gfpTrace env ctl db table st.incCount, by simp [Res.state],
      gfpTrace_noMutation env ctl db table st.incCount⟩
  | some e =>
    rw [gfp_err hq]
    exact ⟨[Effect.readIncrement (incrementPath ctl),
        Effect.query (Query.getTableDataPath db table)],
      by simp [Res.state], by simp [Effect.isMutation]⟩

theorem tracePure_loop (env : Env) (ctl : ClickhouseCTL) (db table : String) :
    ∀ (ps : List Partition) (acc : List FreezedPart),
      tracePure (freezeCompatLoop env ctl db table ps acc) := by
  intro ps
  induction ps with
  | nil =>
    intro acc st
    exact ⟨[], by simp [freezeCompatLoop, Res.state], by simp⟩
  | cons p ps ih =>
    intro acc st
    cases hq : env.queryErr st.qCount with
    | some e =>
      refine ⟨[Effect.query (Query.freezePartition db table p.name)], ?_, by simp [Effect.isMutation]⟩
      simp [freezeCompatLoop, chQuery_err _ hq, Res.state]
    | none =>
      have hg := tracePure_gfp env ctl db table
        { st with qCount := st.qCount + 1, trace := st.trace ++ [Effect.query (Query.freezePartition db table p.name)] }
      rcases hgfp : _get_freezed_parts env ctl db table
          { st with qCount := st.qCount + 1, trace := st.trace ++ [Effect.query (Query.freezePartition db table p.name)] }
        with ⟨fps, st2⟩ | ⟨e, st2⟩
      · rw [hgfp] at hg
        simp only [Res.state] at hg
        obtain ⟨ext1, hext1, hmut1⟩ := hg
        obtain ⟨ext2, hext2, hmut2⟩ := ih (acc ++ fps) st2
        refine ⟨Effect.query (Query.freezePartition db table p.name) :: (ext1 ++ ext2), ?_, ?_⟩
        · simp only [freezeCompatLoop, chQuery_ok _ hq, hgfp]
          rw [hext2, hext1]
          simp [List.append_assoc]
        · intro ef hef
          simp only [List.mem_cons, List.mem_append] at hef
          rcases hef with rfl | hef | hef
          · rfl
          · exact hmut1 ef hef
          · exact hmut2 ef hef
      · rw [hgfp] at hg
        simp only [Res.state] at hg
        obtain ⟨ext1, hext1, hmut1⟩ := hg
        refine ⟨Effect.query (Query.freezePartition db table p.name) :: ext1, ?_, ?_⟩
        · simp only [freezeCompatLoop, chQuery_ok _ hq, hgfp, Res.state]
          rw [hext1]
          simp [List.append_assoc]
        · intro ef hef
          simp only [List.mem_cons] at hef
          rcases hef with rfl | hef
          · rfl
          · exact hmut1 ef hef

theorem tracePure_freeze_whole (env : Env) (ctl : ClickhouseCTL) (db table : String) :
    tracePure (_freeze_table env ctl db table) := by
  intro st
  cases hq : env.queryErr st.qCount with
  | some e =>
    refine ⟨[Effect.query (Query.freezeTable db table)], ?_, by simp [Effect.isMutation]⟩
    simp [_freeze_table, chQuery_err _ hq, Res.state]
  | none =>
    have hg := tracePure_gfp env ctl db table
      { st with qCount := st.qCount + 1, trace := st.trace ++ [Effect.query (Query.freezeTable db table)] }
    obtain ⟨ext1, hext1, hmut1⟩ := hg
    refine ⟨Effect.query (Query.freezeTable db table) :: ext1, ?_, ?_⟩
    · simp only [_freeze_table, chQuery_ok _ hq]
      rw [hext1]
      simp [List.append_assoc]
    · intro ef hef
      simp only [List.mem_cons] at hef
      rcases hef with rfl | hef
      · rfl
      · exact hmut1 ef hef

theorem tracePure_freeze_compat (env : Env) (ctl : ClickhouseCTL) (db table : String) :
    tracePure (_freeze_table_compat env ctl db table) := by
  intro st
  cases hq : env.queryErr st.qCount with
  | some e =>
    refine ⟨[Effect.query (Query.getPartitions db table)], ?_, by simp [Effect.isMutation]⟩
    simp [_freeze_table_compat, get_partitions, chQuery_err _ hq, Res.state]
  | none =>
    have hl := tracePure_loop env ctl db table (partitionsOf env db table) []
      { st with qCount := st.qCount + 1, trace := st.trace ++ [Effect.query (Query.getPartitions db table)] }
    obtain ⟨ext1, hext1, hmut1⟩ := hl
    refine ⟨Effect.query (Query.getPartitions db table) :: ext1, ?_, ?_⟩
    · simp only [_freeze_table_compat, get_partitions, chQuery_ok _ hq, partitionsOf]
      rw [show (env.partitionNames db table).map
            (fun n => (⟨db, table, n⟩ : Partition)) = partitionsOf env db table from rfl]
      rw [hext1]
      simp [List.append_assoc]
    · intro ef hef
      simp only [List.mem_cons] at hef
      rcases hef with rfl | hef
      · rfl
      · exact hmut1 ef hef

/-- `freeze_table` (either path) is read-only: it can query the gateway and
read the filesystem but never deletes files or changes ownership. -/
theorem tracePure_freeze_table (env : Env) (ctl : ClickhouseCTL) (db table : String) :
    tracePure (freeze_table env ctl db table) := by
  unfold freeze_table
  by_cases hv : _match_ch_version ctl "18.16.0" = true
  · simp only [hv, if_true]
    exact tracePure_freeze_whole env ctl db table
  · simp only [Bool.not_eq_true] at hv
    simp only [hv, Bool.false_eq_true, if_false]
    exact tracePure_freeze_compat env ctl db table

/-- The first effect of the whole-table path is the whole-table freeze
command. -/
theorem freeze_whole_head (env : Env) (ctl : ClickhouseCTL) (db table : String) :
    ((_freeze_table env ctl db table St.init).state).trace.head? =
      some (Effect.query (Query.freezeTable db table)) := by
  cases hq : env.queryErr 0 with
  | some e =>
    unfold _freeze_table
    rw [chQuery_err _ (show env.queryErr St.init.qCount = some e by simpa [St.init] using hq)]
    simp [Res.state, St.init]
  | none =>
    unfold _freeze_table
    simp only [chQuery_ok _ (show env.queryErr St.init.qCount = none by simpa [St.init] using hq)]
    show ((_get_freezed_parts env ctl db table
      ⟨1, 0, 0, [Effect.query (Query.freezeTable db table)]⟩).state).trace.head? = _
    obtain ⟨ext, hext, _⟩ := tracePure_gfp env ctl db table
      ⟨1, 0, 0, [Effect.query (Query.freezeTable db table)]⟩
    rw [hext]
    simp

/-- The first effect of the compatibility path is the partition-listing
query, never a freeze command. -/
theorem freeze_compat_head (env : Env) (ctl : ClickhouseCTL) (db table : String) :
    ((_freeze_table_compat env ctl db table St.init).state).trace.head? =
      some (Effect.query (Query.getPartitions db table)) := by
  cases hq : env.queryErr 0 with
  | some e =>
    unfold _freeze_table_compat get_partitions
    rw [chQuery_err _ (show env.queryErr St.init.qCount = some e by simpa [St.init] using hq)]
    simp [Res.state, St.init]
  | none =>
    unfold _freeze_table_compat get_partitions
    simp only [chQuery_ok _ (show env.queryErr St.init.qCount = none by simpa [St.init] using hq)]
    show ((freezeCompatLoop env ctl db table
        ((env.partitionNames db table).map (fun n => ⟨db, table, n⟩)) []
        ⟨1, 0, 0, [Effect.query (Query.getPartitions db table)]⟩).state).trace.head? = _
    obtain ⟨ext, hext, _⟩ := tracePure_loop env ctl db table
      ((env.partitionNames db table).map (fun n => ⟨db, table, n⟩)) []
      ⟨1, 0, 0, [Effect.query (Query.getPartitions db table)]⟩
    rw [hext]
    simp

/-- When no snapshot directory exists for any generation, every enumeration
is empty. -/
theorem partsFrom_empty {env : Env} {ctl : ClickhouseCTL} {db table : String}
    (habs : ∀ i, env.fsExists (snapshotPathAt env ctl db table i) = false) :
    ∀ (i : Nat) (ps : List Partition), partsFrom env ctl db table i ps = [] := by
  intro i ps
  induction ps generalizing i with
  | nil => rfl
  | cons p ps ih =>
    simp [partsFrom, enumAt, habs i, ih]

/-- A retried body that emits exactly one `rmtree` per attempt: the combined
trace extension is a non-empty run of `rmtree` effects on the target. -/
theorem retryCall_rmtree_trace {covers : PyErr → Bool} {body : CtlM Unit} {path : String}
    (hbody : ∀ s, ((body s).state).trace = s.trace ++ [Effect.rmtree path]) :
    ∀ (n : Nat) (st : St), ∃ rest,
      ((retryCall covers body n st).state).trace = st.trace ++ Effect.rmtree path :: rest ∧
      ∀ ef ∈ rest, ef = Effect.rmtree path := by
  intro n
  induction n with
  | zero =>
    intro st
    exact ⟨[], by simpa [retryCall] using hbody st, by simp⟩
  | succ n ih =>
    intro st
    rcases hb : body st with ⟨a, st1⟩ | ⟨e, st1⟩
    · have h1 := hbody st
      rw [hb] at h1
      simp only [Res.state] at h1
      exact ⟨[], by simp [retryCall, hb, Res.state, h1], by simp⟩
    · have h1 := hbody st
      rw [hb] at h1
      simp only [Res.state] at h1
      by_cases hc : covers e = true
      · obtain ⟨rest1, htr, hall⟩ := ih st1
        refine ⟨Effect.rmtree path :: rest1, ?_, ?_⟩
        · simp only [retryCall, hb, hc, if_true]
          rw [htr, h1]
          simp
        · intro ef hef
          simp only [List.mem_cons] at hef
          rcases hef with rfl | hef
          · rfl
          · exact hall ef hef
      · simp only [Bool.not_eq_true] at hc
        exact ⟨[], by simp [retryCall, hb, hc, Res.state, h1], by simp⟩

/-! ## Claim theorems -/

/-- C1, counterexample: the guard of the teardown operations is a plain
string-prefix check. The path `/r/shadowier` merely shares a string prefix
with the shadow root `/r/shadow` without lying under it, yet the operation is
not refused: the `rmtree` filesystem call executes on it and succeeds. -/
theorem c1_counterexample :
    pyStartswith "/r/shadowier" ctlNew.shadowDataPath = true ∧
    "/r/shadowier" ≠ ctlNew.shadowDataPath ∧
    pyStartswith "/r/shadowier" (ctlNew.shadowDataPath ++ "/") = false ∧
    _remove_shadow_data envBase ctlNew "/r/shadowier" St.init =
      Res.ok () ⟨0, 0, 1, [Effect.rmtree "/r/shadowier"]⟩ :=
  ⟨by decide, by decide, by decide, by decide⟩

/-- C1 (amended): ownership-change and teardown operations are refused, with
an `AssertionError` raised before any filesystem effect, exactly when the
target path does not start (as a string) with the configured root; any path
that string-starts with the root — including the root itself and mere
prefix-extensions of it — passes the guard and reaches the deletion
syscall. -/
theorem c1_prefix_guard (env : Env) (ctl : ClickhouseCTL) (path : String)
    (part : FreezedPart) (db table : String) (st : St) :
    (pyStartswith path ctl.shadowDataPath = false →
      _remove_shadow_data env ctl path st = Res.err PyErr.assertionError st) ∧
    (pyStartswith part.path ctl.shadowDataPath = false →
      remove_freezed_part env ctl part st = Res.err PyErr.assertionError st) ∧
    (env.queryErr st.qCount = none →
      pyStartswith (pathJoin (env.tableDataPathOf db table) "detached") ctl.dataPath = false →
      chown_detached_table_parts env ctl db table st =
        Res.err PyErr.assertionError { st with qCount := st.qCount + 1, trace := st.trace ++ [Effect.query (Query.getTableDataPath db table)] }) ∧
    (pyStartswith path ctl.shadowDataPath = true →
      ∃ rest, ((_remove_shadow_data env ctl path st).state).trace =
        st.trace ++ Effect.rmtree path :: rest) := by
  refine ⟨?_, ?_, ?_, ?_⟩
  · intro hpre
    unfold _remove_shadow_data
    exact retryCall_nomatch (removeShadowBody_refuse hpre st) rfl
  · intro hpre
    unfold remove_freezed_part _remove_shadow_data
    exact retryCall_nomatch (removeShadowBody_refuse hpre st) rfl
  · intro hq hpre
    unfold chown_detached_table_parts _get_table_detached_path _get_table_data_path
    simp only [chQuery_ok _ hq]
    simp [_chown_dir, hpre]
  · intro hpre
    unfold _remove_shadow_data
    obtain ⟨rest, htr, _⟩ := retryCall_rmtree_trace
      (fun s => removeShadowBody_trace hpre s) env.retryBound st
    exact ⟨rest, htr⟩

theorem c1_prefix_guard_witness :
    _remove_shadow_data envBase ctlNew "/x" St.init = Res.err PyErr.assertionError St.init ∧
    (∃ rest, ((_remove_shadow_data envBase ctlNew "/r/shadow/5" St.init).state).trace =
      St.init.trace ++ Effect.rmtree "/r/shadow/5" :: rest) :=
  ⟨(c1_prefix_guard envBase ctlNew "/x" ⟨"db", "t", "p", "/x", "h", 0⟩ "db" "t" St.init).1
      (by decide),
   (c1_prefix_guard envBase ctlNew "/r/shadow/5" ⟨"db", "t", "p", "/x", "h", 0⟩ "db" "t"
      St.init).2.2.2 (by decide)⟩

/-- C2: for every well-formed engine version string, `freeze_table` takes the
whole-table freeze path (its first issued command is the whole-table `FREEZE`)
if and only if the parsed version is at least 18.16.0 in semantic-version
order, and version "18.16.0" itself selects the whole-table path. -/
theorem c2_version_gate (env : Env) (ctl : ClickhouseCTL) (db table : String)
    (_hv : isVersionString ctl.chVersion = true) :
    ((((freeze_table env ctl db table St.init).state).trace.head? =
        some (Effect.query (Query.freezeTable db table))) ↔
      verGe (parseVersion ctl.chVersion) (parseVersion "18.16.0") = true) ∧
    (ctl.chVersion = "18.16.0" →
      ((freeze_table env ctl db table St.init).state).trace.head? =
        some (Effect.query (Query.freezeTable db table))) := by
  have hgate : ∀ (_ : _match_ch_version ctl "18.16.0" = true),
      ((freeze_table env ctl db table St.init).state).trace.head? =
        some (Effect.query (Query.freezeTable db table)) := by
    intro h
    unfold freeze_table
    simp only [h, if_true]
    exact freeze_whole_head env ctl db table
  constructor
  · constructor
    · intro hhead
      by_contra hne
      simp only [Bool.not_eq_true] at hne
      have hm : _match_ch_version ctl "18.16.0" = false := hne
      unfold freeze_table at hhead
      simp only [hm, Bool.false_eq_true, if_false] at hhead
      rw [freeze_compat_head env ctl db table] at hhead
      simp at hhead
    · intro hge
      exact hgate hge
  · intro hveq
    refine hgate ?_
    unfold _match_ch_version
    rw [hveq]
    decide

theorem c2_version_gate_witness :
    isVersionString ctlNew.chVersion = true ∧
    ((((freeze_table envBase ctlNew "db" "t" St.init).state).trace.head? =
        some (Effect.query (Query.freezeTable "db" "t"))) ↔
      verGe (parseVersion ctlNew.chVersion) (parseVersion "18.16.0") = true) ∧
    ¬ (((freeze_table envBase ctlSem "db" "t" St.init).state).trace.head? =
        some (Effect.query (Query.freezeTable "db" "t"))) :=
  ⟨by decide,
   (c2_version_gate envBase ctlNew "db" "t" (by decide)).1,
   fun hhead =>
     absurd (((c2_version_gate envBase ctlSem "db" "t" (by decide)).1).mp hhead) (by decide)⟩

/-- C3: on the compatibility path, a fully successful run issues exactly one
freeze-partition command per listed partition, in order; and when the freeze
command of partition k raises a gateway error (everything earlier having
succeeded), the whole call stops at that point, the error propagates
unchanged, no artifact list is returned, and exactly the first k+1
freeze-partition commands were issued. -/
theorem c3_compat_abort (env : Env) (ctl : ClickhouseCTL) (db table : String) :
    ((∀ j, env.queryErr j = none) →
      ∃ st1, _freeze_table_compat env ctl db table St.init =
          Res.ok (partsFrom env ctl db table 0 (partitionsOf env db table)) st1 ∧
        st1.trace.filter Effect.isFreezePartitionQ =
          (env.partitionNames db table).map
            (fun n => Effect.query (Query.freezePartition db table n))) ∧
    (∀ (k : Nat) (e : PyErr), env.queryErr 0 = none →
      (∀ j, j < k → env.queryErr (1 + 2 * j) = none ∧ env.queryErr (1 + 2 * j + 1) = none) →
      env.queryErr (1 + 2 * k) = some e →
      k < (env.partitionNames db table).length →
      ∃ st1, _freeze_table_compat env ctl db table St.init = Res.err e st1 ∧
        st1.trace.filter Effect.isFreezePartitionQ =
          ((env.partitionNames db table).take (k + 1)).map
            (fun n => Effect.query (Query.freezePartition db table n))) := by
  constructor
  · intro hq
    refine ⟨_, _freeze_table_compat_ok ctl db table hq, ?_⟩
    simp only [List.filter]
    rw [show Effect.isFreezePartitionQ (Effect.query (Query.getPartitions db table)) = false
      from rfl]
    rw [filter_loopTrace env ctl db table (partitionsOf env db table) 0]
    simp [partitionsOf, List.map_map]
  · intro k e h0 hfree herr hk
    unfold _freeze_table_compat get_partitions
    simp only [chQuery_ok _ (show env.queryErr St.init.qCount = none by simpa [St.init] using h0)]
    show ∃ st1, (freezeCompatLoop env ctl db table (partitionsOf env db table) []
        ⟨1, 0, 0, [Effect.query (Query.getPartitions db table)]⟩ = Res.err e st1) ∧ _
    obtain ⟨st1, hrun, hfilt⟩ := freezeCompatLoop_err ctl db table (partitionsOf env db table) k
      [] ⟨1, 0, 0, [Effect.query (Query.getPartitions db table)]⟩ e
      (fun j hj => hfree j hj) herr (by simpa [partitionsOf] using hk)
    refine ⟨st1, hrun, ?_⟩
    rw [hfilt]
    have hfe : Effect.isFreezePartitionQ (Effect.query (Query.getPartitions db table)) = false :=
      rfl
    simp only [List.filter, hfe, partitionsOf]
    rw [← List.map_take, List.map_map]
    rfl

theorem c3_compat_abort_witness :
    ∃ st1, _freeze_table_compat envFreezeFail ctlOld "db" "t" St.init =
        Res.err (PyErr.gatewayError "freeze failed") st1 ∧
      st1.trace.filter Effect.isFreezePartitionQ =
        ((envFreezeFail.partitionNames "db" "t").take 1).map
          (fun n => Effect.query (Query.freezePartition "db" "t" n)) :=
  (c3_compat_abort envFreezeFail ctlOld "db" "t").2 0 (PyErr.gatewayError "freeze failed")
    (by decide) (fun j hj => absurd hj (by omega)) (by decide) (by decide)

/-- C4: on the compatibility path over n partitions, the increment file is
read exactly n times — once per freeze-partition command — and the artifacts
of the i-th command are enumerated against the i-th (fresh) read, never a
cached one. -/
theorem c4_increment_reread (env : Env) (ctl : ClickhouseCTL) (db table : String)
    (hq : ∀ j, env.queryErr j = none) :
    ∃ st1, _freeze_table_compat env ctl db table St.init =
        Res.ok (partsFrom env ctl db table 0 (partitionsOf env db table)) st1 ∧
      st1.incCount = (env.partitionNames db table).length := by
  refine ⟨_, _freeze_table_compat_ok ctl db table hq, ?_⟩
  simp [partitionsOf]

theorem c4_increment_reread_witness :
    ∃ st1, _freeze_table_compat envBase ctlOld "db" "t" St.init =
        Res.ok (partsFrom envBase ctlOld "db" "t" 0 (partitionsOf envBase "db" "t")) st1 ∧
      st1.incCount = (envBase.partitionNames "db" "t").length :=
  c4_increment_reread envBase ctlOld "db" "t" (fun _ => rfl)

/-- C5: an enumeration whose resolved snapshot directory does not exist
returns the empty artifact list (not an error), and a `freeze_table` call all
of whose enumerations resolve to absent directories succeeds with the empty
list. -/
theorem c5_missing_dir_empty (env : Env) (ctl : ClickhouseCTL) (db table : String) :
    (∀ st, env.queryErr st.qCount = none →
      env.fsExists (snapshotPathAt env ctl db table st.incCount) = false →
      _get_freezed_parts env ctl db table st =
        Res.ok [] { st with qCount := st.qCount + 1, incCount := st.incCount + 1, trace := st.trace ++ gfpTrace env ctl db table st.incCount }) ∧
    ((∀ j, env.queryErr j = none) →
      (∀ i, env.fsExists (snapshotPathAt env ctl db table i) = false) →
      ∃ st1, freeze_table env ctl db table St.init = Res.ok [] st1) := by
  constructor
  · intro st hq habs
    rw [gfp_ok hq]
    simp [enumAt, habs]
  · intro hq habs
    unfold freeze_table
    by_cases hm : _match_ch_version ctl "18.16.0" = true
    · simp only [hm, if_true]
      refine ⟨⟨2, 1, 0, Effect.query (Query.freezeTable db table) :: gfpTrace env ctl db table 0⟩, ?_⟩
      rw [_freeze_table_ok ctl db table hq]
      simp [enumAt, habs 0]
    · simp only [Bool.not_eq_true] at hm
      simp only [hm, Bool.false_eq_true, if_false]
      refine ⟨⟨1 + 2 * (partitionsOf env db table).length, (partitionsOf env db table).length, 0, Effect.query (Query.getPartitions db table) :: loopTrace env ctl db table 0 (partitionsOf env db table)⟩, ?_⟩
      rw [_freeze_table_compat_ok ctl db table hq,
        partsFrom_empty habs 0 (partitionsOf env db table)]

theorem c5_missing_dir_empty_witness :
    ∃ st1, freeze_table envAbsent ctlNew "db" "t" St.init = Res.ok [] st1 :=
  (c5_missing_dir_empty envAbsent ctlNew "db" "t").2 (fun _ => rfl) (fun _ => rfl)

/-- C6, counterexample: the deletion body is wrapped in `retry(OSError)`, and
`PermissionError` is an `OSError` subclass, so a permission-denied failure is
retried rather than surfacing immediately: here the first `rmtree` attempt
raises `PermissionError`, the second succeeds, and the call returns success
after two attempts. -/
theorem c6_counterexample :
    envPermRetry.rmtreeErr 0 = some PyErr.permissionError ∧
    PyErr.isOSError PyErr.permissionError = true ∧
    remove_freezed_data envPermRetry ctlNew St.init =
      Res.ok () ⟨0, 0, 2, [Effect.rmtree "/r/shadow", Effect.rmtree "/r/shadow"]⟩ :=
  ⟨by decide, by decide, by decide⟩

/-- C6 (amended): teardown deletion is retried, with a bounded number of
attempts, on every error matching `OSError` — including `PermissionError` —
after which the last error surfaces; an error that does not match `OSError`
surfaces after a single attempt; and a transient failure followed by a
successful attempt makes the call succeed. -/
theorem c6_retry_policy (env : Env) (ctl : ClickhouseCTL) (path : String) (st : St) (e : PyErr) :
    (pyStartswith path ctl.shadowDataPath = true → env.fsExists path = true →
      (∀ k, env.rmtreeErr k = some e) → PyErr.isOSError e = true →
      e ≠ PyErr.fileNotFoundError →
      _remove_shadow_data env ctl path st =
        Res.err e { st with rmCount := st.rmCount + (env.retryBound + 1), trace := st.trace ++ List.replicate (env.retryBound + 1) (Effect.rmtree path) }) ∧
    (pyStartswith path ctl.shadowDataPath = true → env.fsExists path = true →
      env.rmtreeErr st.rmCount = some e → PyErr.isOSError e = false →
      _remove_shadow_data env ctl path st =
        Res.err e { st with rmCount := st.rmCount + 1, trace := st.trace ++ [Effect.rmtree path] }) ∧
    (pyStartswith path ctl.shadowDataPath = true → env.fsExists path = true →
      env.rmtreeErr st.rmCount = some e → PyErr.isOSError e = true →
      e ≠ PyErr.fileNotFoundError →
      env.rmtreeErr (st.rmCount + 1) = none → 1 ≤ env.retryBound →
      _remove_shadow_data env ctl path st =
        Res.ok () { st with rmCount := st.rmCount + 2, trace := st.trace ++ [Effect.rmtree path, Effect.rmtree path] }) := by
  refine ⟨?_, ?_, ?_⟩
  · intro hpre hex herr hcov hne
    unfold _remove_shadow_data
    exact retryCall_allfail hcov
      (fun s => removeShadowBody_err hpre hex (herr s.rmCount) hne) env.retryBound st
  · intro hpre hex herr hcov
    have hne : e ≠ PyErr.fileNotFoundError := by
      intro hh
      rw [hh] at hcov
      exact absurd hcov (by decide)
    unfold _remove_shadow_data
    exact retryCall_nomatch (removeShadowBody_err hpre hex herr hne) hcov
  · intro hpre hex herr hcov hne hok2 hb
    obtain ⟨m, hm⟩ : ∃ m, env.retryBound = m + 1 := ⟨env.retryBound - 1, by omega⟩
    unfold _remove_shadow_data
    rw [hm]
    simp only [retryCall, removeShadowBody_err hpre hex herr hne, hcov, if_true]
    rw [retryCall_ok (removeShadowBody_ok hpre hex (by simpa using hok2))]
    simp [List.append_assoc]

theorem c6_retry_policy_witness :
    _remove_shadow_data envPermAll ctlNew "/r/shadow" St.init =
      Res.err PyErr.permissionError
        ⟨0, 0, 4, List.replicate 4 (Effect.rmtree "/r/shadow")⟩ := by
  have h := (c6_retry_policy envPermAll ctlNew "/r/shadow" St.init PyErr.permissionError).1
    (by decide) (by decide) (fun _ => rfl) (by decide) (by decide)
  exact h

/-- C7: deletion of an already-absent target is not an error: both
`remove_freezed_data` on an absent shadow root and `remove_freezed_part` on
an absent (in-root) part directory succeed after a single attempt, the
`FileNotFoundError` being swallowed. -/
theorem c7_idempotent_remove (env : Env) (ctl : ClickhouseCTL) (part : FreezedPart) (st : St) :
    (env.fsExists ctl.shadowDataPath = false →
      remove_freezed_data env ctl st =
        Res.ok () { st with rmCount := st.rmCount + 1, trace := st.trace ++ [Effect.rmtree ctl.shadowDataPath] }) ∧
    (pyStartswith part.path ctl.shadowDataPath = true → env.fsExists part.path = false →
      remove_freezed_part env ctl part st =
        Res.ok () { st with rmCount := st.rmCount + 1, trace := st.trace ++ [Effect.rmtree part.path] }) := by
  constructor
  · intro habs
    unfold remove_freezed_data _remove_shadow_data
    exact retryCall_ok (removeShadowBody_absent (pyStartswith_self _) habs st)
  · intro hpre habs
    unfold remove_freezed_part _remove_shadow_data
    exact retryCall_ok (removeShadowBody_absent hpre habs st)

theorem c7_idempotent_remove_witness :
    remove_freezed_data envAbsent ctlNew St.init =
      Res.ok () ⟨0, 0, 1, [Effect.rmtree "/r/shadow"]⟩ ∧
    remove_freezed_part envAbsent ctlNew ⟨"db", "t", "p1", "/r/shadow/5/data/db/t/p1", "h", 10⟩
        St.init =
      Res.ok () ⟨0, 0, 1, [Effect.rmtree "/r/shadow/5/data/db/t/p1"]⟩ :=
  ⟨(c7_idempotent_remove envAbsent ctlNew ⟨"db", "t", "p1", "/r/shadow/5/data/db/t/p1", "h", 10⟩
      St.init).1 rfl,
   (c7_idempotent_remove envAbsent ctlNew ⟨"db", "t", "p1", "/r/shadow/5/data/db/t/p1", "h", 10⟩
      St.init).2 (by decide) rfl⟩

/-- C8: the artifact checksum depends only on the digest function and the
bytes of the part's `checksums.txt` manifest: any two part directories (in
possibly different worlds sharing the digest) whose manifest bytes agree get
equal checksums, whatever other files either directory holds. -/
theorem c8_checksum_manifest_only (env1 env2 : Env) (p1 p2 : String)
    (hmd5 : env1.md5hex = env2.md5hex)
    (hbytes : env1.fileBytes (pathJoin p1 "checksums.txt") =
      env2.fileBytes (pathJoin p2 "checksums.txt")) :
    _get_part_checksum env1 p1 = _get_part_checksum env2 p2 := by
  unfold _get_part_checksum
  rw [hbytes, hmd5]

theorem c8_checksum_manifest_only_witness :
    _get_part_checksum envBase "/r/shadow/5/data/db/t/part1" =
      _get_part_checksum envAbsent "/a/b" :=
  c8_checksum_manifest_only envBase envAbsent "/r/shadow/5/data/db/t/part1" "/a/b" rfl rfl

/-- C9, counterexample: `remove_freezed_data` removes the entire shadow root,
and the increment file `shadow/increment.txt` lies inside that root, so the
operation deletes the increment file rather than leaving it unchanged. -/
theorem c9_counterexample :
    remove_freezed_data envBase ctlNew St.init =
      Res.ok () ⟨0, 0, 1, [Effect.rmtree ctlNew.shadowDataPath]⟩ ∧
    rmtreeDeletes ctlNew.shadowDataPath (incrementPath ctlNew) = true :=
  ⟨by decide, by decide⟩

/-- C9 (amended): the controller never writes the increment file —
`freeze_table` (either path) emits no deletion or ownership-change effect at
all — but `remove_freezed_data` does delete it: its only filesystem effects
are `rmtree` calls on the shadow root, whose deletion set contains the
increment file. -/
theorem c9_increment_frame (env : Env) (ctl : ClickhouseCTL) (db table : String) (st : St)
    (hroot : ctl.shadowDataPath ≠ "") (hslash : pyEndswith ctl.shadowDataPath "/" = false) :
    tracePure (freeze_table env ctl db table) ∧
    rmtreeDeletes ctl.shadowDataPath (incrementPath ctl) = true ∧
    (∃ ext, ((remove_freezed_data env ctl st).state).trace = st.trace ++ ext ∧
      ∀ ef ∈ ext, ef = Effect.rmtree ctl.shadowDataPath) := by
  refine ⟨tracePure_freeze_table env ctl db table, ?_, ?_⟩
  · have hinc : incrementPath ctl = (ctl.shadowDataPath ++ "/") ++ "increment.txt" := by
      unfold incrementPath pathJoin
      rw [show pyStartswith "increment.txt" "/" = false from by decide]
      simp [hroot, hslash]
    rw [hinc]
    simp [rmtreeDeletes, pyStartswith_append]
  · unfold remove_freezed_data _remove_shadow_data
    obtain ⟨rest, htr, hall⟩ := retryCall_rmtree_trace
      (fun s => removeShadowBody_trace (pyStartswith_self _) s) env.retryBound st
    refine ⟨Effect.rmtree ctl.shadowDataPath :: rest, htr, ?_⟩
    intro ef hef
    rcases List.mem_cons.mp hef with rfl | hef
    · rfl
    · exact hall ef hef

theorem c9_increment_frame_witness :
    rmtreeDeletes ctlNew.shadowDataPath (incrementPath ctlNew) = true ∧
    (∃ ext, ((remove_freezed_data envBase ctlNew St.init).state).trace = St.init.trace ++ ext ∧
      ∀ ef ∈ ext, ef = Effect.rmtree ctlNew.shadowDataPath) :=
  ⟨(c9_increment_frame envBase ctlNew "db" "t" St.init (by decide) (by decide)).2.1,
   (c9_increment_frame envBase ctlNew "db" "t" St.init (by decide) (by decide)).2.2⟩

/-- C10, counterexample: on the compatibility path, with two partitions and
both increment reads resolving to the same generation `5`, the same snapshot
directory is enumerated twice and the returned artifact list repeats the same
path — the artifacts are not one-to-one with on-disk parts. -/
theorem c10_counterexample :
    (resParts (freeze_table envBase ctlOld "db" "t" St.init)).map (fun fp => fp.path) =
      ["/r/shadow/5/data/db/t/part1", "/r/shadow/5/data/db/t/part1"] ∧
    ¬ ((resParts (freeze_table envBase ctlOld "db" "t" St.init)).map
        (fun fp => fp.path)).Nodup :=
  ⟨by decide, by decide⟩

/-- C10 (amended): on the whole-table path, a successful `freeze_table`
returns artifacts with pairwise-distinct paths, given the operating-system
guarantees on directory listings (no duplicate entries, entries are plain
names); on the compatibility path artifacts accumulate across per-partition
enumerations without deduplication and paths may repeat when successive
freeze commands resolve to the same generation (see the counterexample). -/
theorem c10_distinct_paths (env : Env) (ctl : ClickhouseCTL) (db table : String)
    (hv : verGe (parseVersion ctl.chVersion) (parseVersion "18.16.0") = true)
    (hq : ∀ j, env.queryErr j = none)
    (hnd : (env.listdir (snapshotPathAt env ctl db table 0)).Nodup)
    (hrel : ∀ x ∈ env.listdir (snapshotPathAt env ctl db table 0),
      pyStartswith x "/" = false) :
    ∃ st1, freeze_table env ctl db table St.init =
        Res.ok (enumAt env ctl db table 0) st1 ∧
      ((enumAt env ctl db table 0).map (fun fp => fp.path)).Nodup := by
  have hm : _match_ch_version ctl "18.16.0" = true := hv
  refine ⟨⟨2, 1, 0, Effect.query (Query.freezeTable db table) :: gfpTrace env ctl db table 0⟩, ?_, ?_⟩
  · unfold freeze_table
    simp only [hm, if_true]
    exact _freeze_table_ok ctl db table hq
  · unfold enumAt
    by_cases hfs : env.fsExists (snapshotPathAt env ctl db table 0) = true
    · simp only [hfs, if_true]
      rw [List.map_map]
      rw [show ((fun fp => fp.path) ∘
          fun part => mkFreezedPart env db table (snapshotPathAt env ctl db table 0) part) =
          fun part => pathJoin (snapshotPathAt env ctl db table 0) part from rfl]
      exact List.Nodup.map_on
        (fun x hx y hy hxy => pathJoin_inj (hrel x hx) (hrel y hy) hxy) hnd
    · simp only [Bool.not_eq_true] at hfs
      simp [hfs]

theorem c10_distinct_paths_witness :
    ∃ st1, freeze_table envBase ctlNew "db" "t" St.init =
        Res.ok (enumAt envBase ctlNew "db" "t" 0) st1 ∧
      ((enumAt envBase ctlNew "db" "t" 0).map (fun fp => fp.path)).Nodup :=
  c10_distinct_paths envBase ctlNew "db" "t" (by decide) (fun _ => rfl) (by decide) (by decide)

end ChBackup
